import Mathlib

/-!
# PythonEngineOptions

A verification development for `Code/PythonEngine/PythonEngineOptions.h`: the
options panel of the Python engine plug-in, its two configuration settings and
its static plug-in identity accessors.

The header declares the class; the bodies of `setUserFile` and `applyChanges`
and the setting macros of `ConfigurationSettings.h` are not part of the
sources and are modelled from the specification, each such definition saying
so. The constants of `PythonVersion.h` are parameters.
-/

/-! ## Host types -/

/-- Modelled from the spec: `Filename.h` is not among the sources. A `Filename`
carries "a filesystem path" value; a `const Filename*` is an
`Option Filename`, `none` being the null pointer. -/
structure Filename where
  fullPathAndName : String
deriving DecidableEq, Repr

/-- Modelled from the spec: the file-browser widget (class `FileBrowser`, only
forward-declared in the header) holds the path value on display, which is
what the user edits. -/
structure FileBrowser where
  filename : Filename
deriving DecidableEq, Repr

/-- Modelled from the spec: the name of a setting in the "named persistent
store". The two components are the first two arguments of the setting macros:
the setting name and the setting class (group). -/
structure SettingKey where
  settingClass : String
  settingName : String
deriving DecidableEq, Repr

/-- Modelled from the spec: a value kept in the configuration store. The
accessors are "typed"; the two settings of this class are of type `bool` and
`Filename`. -/
inductive SettingValue where
  | boolean (b : Bool)
  | filename (f : Filename)
deriving DecidableEq, Repr

/-- Modelled from the spec: the host configuration store of
`ConfigurationSettings.h`, a persistent store of named settings. A setting
that has never been set has no entry. -/
structure ConfigurationSettings where
  entries : List (SettingKey × SettingValue)
deriving DecidableEq, Repr

namespace ConfigurationSettings

/-- The store in which nothing has been set. -/
def empty : ConfigurationSettings := ⟨[]⟩

/-- Modelled from the spec: the value stored under a key, if there is one. -/
def getSetting (cs : ConfigurationSettings) (key : SettingKey) : Option SettingValue :=
  match cs.entries.find? (fun e => decide (e.1 = key)) with
  | some e => some e.2
  | none => none

/-- Modelled from the spec: store a value under a key, replacing what was
there. -/
def setSetting (cs : ConfigurationSettings) (key : SettingKey) (value : SettingValue) :
    ConfigurationSettings :=
  ⟨(key, value) :: cs.entries.filter (fun e => !decide (e.1 = key))⟩

/-- Whether a key has been set in the store. -/
def isSet (cs : ConfigurationSettings) (key : SettingKey) : Bool :=
  (cs.getSetting key).isSome

end ConfigurationSettings

/-- The constants of `PythonVersion.h`, which is not among the sources, taken
as parameters: the header under study only names them, as the initialisers of
`getCopyright` and `getVersion` and as the result of `isProduction`. -/
structure PythonVersion where
  PYTHON_COPYRIGHT : String
  PYTHON_VERSION_NUMBER : String
  PYTHON_IS_PRODUCTION_RELEASE : Bool
deriving DecidableEq, Repr

/-! ## The class -/

/-- The data of `class PythonEngineOptions`: its one data member is
`FileBrowser* mpUserConfig` (the base class `LabeledSectionGroup` only lays
widgets out). -/
structure PythonEngineOptions where
  mpUserConfig : FileBrowser
deriving DecidableEq, Repr

namespace PythonEngineOptions

/-! ### The settings: `SETTING_PTR(UserFile, PythonEngine, Filename)` and
`SETTING(InteractiveAvailable, PythonEngine, bool, true)` -/

/-- Key of `SETTING_PTR(UserFile, PythonEngine, Filename)`. -/
def getUserFileKey : SettingKey := ⟨"PythonEngine", "UserFile"⟩

/-- Key of `SETTING(InteractiveAvailable, PythonEngine, bool, true)`. -/
def getInteractiveAvailableKey : SettingKey := ⟨"PythonEngine", "InteractiveAvailable"⟩

/-- Modelled from the spec: the getter generated by the absent macro
`SETTING_PTR` for `UserFile`. The setting is declared without a default: the
getter returns a `const Filename*`, null unless a `Filename` is stored. -/
def getSettingUserFile (cs : ConfigurationSettings) : Option Filename :=
  match cs.getSetting getUserFileKey with
  | some (.filename f) => some f
  | _ => none

/-- Modelled from the spec: the setter generated by the absent macro
`SETTING_PTR` for `UserFile`, writing a path value to the store. -/
def setSettingUserFile (cs : ConfigurationSettings) (newValue : Filename) :
    ConfigurationSettings :=
  cs.setSetting getUserFileKey (.filename newValue)

/-- Modelled from the spec: the getter generated by the absent macro `SETTING`
for `InteractiveAvailable`; the macro's fourth argument `true` is the default,
returned when no `bool` is stored. -/
def getSettingInteractiveAvailable (cs : ConfigurationSettings) : Bool :=
  match cs.getSetting getInteractiveAvailableKey with
  | some (.boolean b) => b
  | _ => true

/-- Modelled from the spec: the setter generated by the absent macro `SETTING`
for `InteractiveAvailable`. -/
def setSettingInteractiveAvailable (cs : ConfigurationSettings) (newValue : Bool) :
    ConfigurationSettings :=
  cs.setSetting getInteractiveAvailableKey (.boolean newValue)

/-! ### Public operations -/

/-- Modelled from the spec: the body of `setUserFile(const Filename* pUserFile)`
is in the absent `PythonEngineOptions.cpp`. It "pushes a path value into the
browser widget for display/edit; no validation performed here". A null
pointer carries no path value; the model then leaves the widget as it is. -/
def setUserFile (panel : PythonEngineOptions) (pUserFile : Option Filename) :
    PythonEngineOptions :=
  match pUserFile with
  | some f => { panel with mpUserConfig := ⟨f⟩ }
  | none => panel

/-- Modelled from the spec: the body of `applyChanges()` is in the absent
`PythonEngineOptions.cpp`. It "reads the current widget value(s) and commits
them to the persisted settings"; the widget of this class is `mpUserConfig`,
whose setting is `UserFile`. The result is the configuration store after the
call. -/
def applyChanges (panel : PythonEngineOptions) (cs : ConfigurationSettings) :
    ConfigurationSettings :=
  setSettingUserFile cs panel.mpUserConfig.filename

/-! ### Static plug-in identity accessors

Each accessor of the header has the body
`static std::string var = <initialiser>; return var;` and is embedded as the
string it returns. -/

/-- `getName()`: `"Python Engine Options"`. -/
def getName : String := "Python Engine Options"

/-- `getOptionName()`: `"Scripting/Python Engine"`. -/
def getOptionName : String := "Scripting/Python Engine"

/-- `getDescription()`: `"Configuration options for the Python engine"`. -/
def getDescription : String := "Configuration options for the Python engine"

/-- `getShortDescription()`: `"Configuration options for the Python engine"`. -/
def getShortDescription : String := "Configuration options for the Python engine"

/-- `getCreator()`: `"Ball Aerospace & Technologies Corp."`. -/
def getCreator : String := "Ball Aerospace & Technologies Corp."

/-- `getCopyright()`: the string `PYTHON_COPYRIGHT`. -/
def getCopyright (pv : PythonVersion) : String := pv.PYTHON_COPYRIGHT

/-- `getVersion()`: the string `PYTHON_VERSION_NUMBER`. -/
def getVersion (pv : PythonVersion) : String := pv.PYTHON_VERSION_NUMBER

/-- `isProduction()`: `PYTHON_IS_PRODUCTION_RELEASE`. -/
def isProduction (pv : PythonVersion) : Bool := pv.PYTHON_IS_PRODUCTION_RELEASE

/-- `getDescriptorId()`: the 38 characters
`LBRACE 7fdc8adc-c0d4-49d7-8aad-b4d8a51f12af RBRACE` of the header, the two
braces written as the escapes `\x7b` and `\x7d`. -/
def getDescriptorId : String := "\x7b7fdc8adc-c0d4-49d7-8aad-b4d8a51f12af\x7d"

/-- The nine static accessors of the class. -/
inductive StaticAccessor where
  | getName
  | getOptionName
  | getDescription
  | getShortDescription
  | getCreator
  | getCopyright
  | getVersion
  | isProduction
  | getDescriptorId
deriving DecidableEq, Repr

/-- What a static accessor returns: a `std::string` or a `bool`. -/
inductive MetaValue where
  | str (s : String)
  | flag (b : Bool)
deriving DecidableEq, Repr

/-- The state of the running program as far as this class can see it: the host
configuration store and the panel instances alive. -/
structure ProgramState where
  settings : ConfigurationSettings
  panels : List PythonEngineOptions
deriving DecidableEq, Repr

/-- A call of a static accessor in a program state: the outcome is `none` when
the call fails, and otherwise the returned value with the state after the
call. The bodies in the header take no argument and no `this`, and touch
neither the configuration store nor a panel. -/
def StaticAccessor.invoke (pv : PythonVersion) (a : StaticAccessor) (s : ProgramState) :
    Option (MetaValue × ProgramState) :=
  match a with
  | .getName => some (.str PythonEngineOptions.getName, s)
  | .getOptionName => some (.str PythonEngineOptions.getOptionName, s)
  | .getDescription => some (.str PythonEngineOptions.getDescription, s)
  | .getShortDescription => some (.str PythonEngineOptions.getShortDescription, s)
  | .getCreator => some (.str PythonEngineOptions.getCreator, s)
  | .getCopyright => some (.str (PythonEngineOptions.getCopyright pv), s)
  | .getVersion => some (.str (PythonEngineOptions.getVersion pv), s)
  | .isProduction => some (.flag (PythonEngineOptions.isProduction pv), s)
  | .getDescriptorId => some (.str PythonEngineOptions.getDescriptorId, s)

end PythonEngineOptions

/-- A lowercase hexadecimal digit: `0`-`9` or `a`-`f`. -/
def isLowerHexDigit (c : Char) : Bool :=
  (decide ('0' ≤ c) && decide (c ≤ '9')) || (decide ('a' ≤ c) && decide (c ≤ 'f'))

/-! ## Lemmas on the configuration store -/

open PythonEngineOptions

theorem ConfigurationSettings.getSetting_setSetting_same (cs : ConfigurationSettings)
    (key : SettingKey) (value : SettingValue) :
    (cs.setSetting key value).getSetting key = some value := by
  simp [ConfigurationSettings.getSetting, ConfigurationSettings.setSetting]

/-! ## The settings and the panel -/

/-- C1: for every path value `p`, every panel and every configuration store,
`setUserFile(p)` followed by `applyChanges()` leaves the persisted `UserFile`
setting equal to `p`: reading the setting afterwards returns `p`. -/
theorem setUserFile_applyChanges_persists_path (panel : PythonEngineOptions)
    (cs : ConfigurationSettings) (p : Filename) :
    getSettingUserFile (applyChanges (setUserFile panel (some p)) cs) = some p := by
  simp only [getSettingUserFile, applyChanges, setUserFile, setSettingUserFile,
    ConfigurationSettings.getSetting_setSetting_same]

/-- C2: in every configuration store in which `InteractiveAvailable` has never
been set, reading the `InteractiveAvailable` setting of the `PythonEngine`
group returns `true`, the default of its declaration. -/
theorem interactiveAvailable_default_true (cs : ConfigurationSettings)
    (h : cs.isSet getInteractiveAvailableKey = false) :
    getSettingInteractiveAvailable cs = true := by
  unfold ConfigurationSettings.isSet at h
  unfold getSettingInteractiveAvailable
  cases hg : cs.getSetting getInteractiveAvailableKey with
  | none => rfl
  | some v => simp [hg] at h

/-- The empty store has never had `InteractiveAvailable` set, and there the
setting reads `true`. -/
theorem interactiveAvailable_default_true_witness :
    ConfigurationSettings.empty.isSet getInteractiveAvailableKey = false ∧
      getSettingInteractiveAvailable ConfigurationSettings.empty = true :=
  ⟨by decide, interactiveAvailable_default_true ConfigurationSettings.empty (by decide)⟩

/-- C7: in every configuration store in which `UserFile` has never been set,
reading the `UserFile` setting of the `PythonEngine` group returns no value
(the null `Filename` pointer): the setting has no default. -/
theorem userFile_default_unset (cs : ConfigurationSettings)
    (h : cs.isSet getUserFileKey = false) :
    getSettingUserFile cs = none := by
  unfold ConfigurationSettings.isSet at h
  unfold getSettingUserFile
  cases hg : cs.getSetting getUserFileKey with
  | none => rfl
  | some v => simp [hg] at h

/-- A store in which only `InteractiveAvailable` was set has never had
`UserFile` set, and there `UserFile` reads as the null pointer. -/
theorem userFile_default_unset_witness :
    (setSettingInteractiveAvailable ConfigurationSettings.empty false).isSet
        getUserFileKey = false ∧
      getSettingUserFile
        (setSettingInteractiveAvailable ConfigurationSettings.empty false) = none :=
  ⟨by decide, userFile_default_unset _ (by decide)⟩

/-! ## Plug-in identity -/

/-- C3: each accessor defined by a string literal returns that literal, and
each of the six strings has length greater than zero. -/
theorem literal_accessors_fixed_nonempty :
    (getName = "Python Engine Options" ∧
      getOptionName = "Scripting/Python Engine" ∧
      getDescription = "Configuration options for the Python engine" ∧
      getShortDescription = "Configuration options for the Python engine" ∧
      getCreator = "Ball Aerospace & Technologies Corp." ∧
      getDescriptorId = "\x7b7fdc8adc-c0d4-49d7-8aad-b4d8a51f12af\x7d") ∧
    (0 < getName.length ∧ 0 < getOptionName.length ∧ 0 < getDescription.length ∧
      0 < getShortDescription.length ∧ 0 < getCreator.length ∧
      0 < getDescriptorId.length) := by
  refine ⟨⟨rfl, rfl, rfl, rfl, rfl, rfl⟩, ?_, ?_, ?_, ?_, ?_, ?_⟩ <;> decide

/-- C6: every static accessor is a pure constant getter. For each accessor
there is one value that every call returns, in every program state: the call
does not fail, the value does not depend on the configuration store or on the
panels, and the state after the call, the persisted settings included, is the
state before it. -/
theorem static_accessors_pure_constant (pv : PythonVersion) (a : StaticAccessor) :
    ∃ v : MetaValue, ∀ s : ProgramState, a.invoke pv s = some (v, s) := by
  cases a <;> exact ⟨_, fun _ => rfl⟩

/-- C8: `getDescription()` and `getShortDescription()` return equal strings,
the text "Configuration options for the Python engine". -/
theorem shortDescription_eq_description :
    getDescription = getShortDescription ∧
      getShortDescription = "Configuration options for the Python engine" :=
  ⟨rfl, rfl⟩

/-- C9: the string of `getDescriptorId()` is a brace-wrapped GUID. It has 38
characters, the first an opening and the last a closing brace; the characters
at positions 9, 14, 19 and 24 are `-`; every other character between the
braces is a lowercase hexadecimal digit, in groups of 8, 4, 4, 4 and 12. -/
theorem descriptorId_wellformed_guid :
    getDescriptorId.length = 38 ∧
      getDescriptorId.data.get? 0 = some '\x7b' ∧
      getDescriptorId.data.get? 37 = some '\x7d' ∧
      getDescriptorId.data.get? 9 = some '-' ∧
      getDescriptorId.data.get? 14 = some '-' ∧
      getDescriptorId.data.get? 19 = some '-' ∧
      getDescriptorId.data.get? 24 = some '-' ∧
      (∀ i : Fin 38,
        (i.val = 0 ∨ i.val = 9 ∨ i.val = 14 ∨ i.val = 19 ∨ i.val = 24 ∨ i.val = 37) ∨
          (getDescriptorId.data.get? i.val).any isLowerHexDigit = true) ∧
      (∃ g1 g2 g3 g4 g5 : List Char,
        getDescriptorId.data =
          '\x7b' :: g1 ++ '-' :: g2 ++ '-' :: g3 ++ '-' :: g4 ++ '-' :: g5 ++ ['\x7d'] ∧
        g1.length = 8 ∧ g2.length = 4 ∧ g3.length = 4 ∧ g4.length = 4 ∧ g5.length = 12 ∧
        (g1 ++ g2 ++ g3 ++ g4 ++ g5).all isLowerHexDigit = true) := by
  refine ⟨by decide, by decide, by decide, by decide, by decide, by decide, by decide,
    by decide, ?_⟩
  exact ⟨"7fdc8adc".data, "c0d4".data, "49d7".data, "8aad".data, "b4d8a51f12af".data,
    by decide, by decide, by decide, by decide, by decide, by decide, by decide⟩
